import Mathlib

/-!
Verification of the loan-ledger core of `src/app.py` (Shumba Credit Manager).

Modelling conventions:
- Monetary amounts are rationals (the source uses Python floats; the spec
  states the arithmetic with exact formulas such as `amount * (1 + rate)`).
- Calendar dates are integers counting days; the source stores dates as
  `YYYY-MM-DD` strings and compares them after parsing, so subtraction of
  day numbers models `(d1 - d2).days` exactly.
- `datetime.date.today()` becomes an explicit `today : Int` parameter.
- Loan status is a `String`, with the exact values the source uses:
  "Paid", "Overdue", "Due Soon", "Active".
-/

/-- A loan row, mirroring the columns of the `loans` table and the loan
dictionaries built in `src/app.py`. -/
structure Loan where
  loan_id : String
  borrower_id : String
  amount : ℚ
  interest_rate : ℚ
  loan_date : Int
  due_date : Int
  initial_total_due : ℚ
  current_outstanding_balance : ℚ
  payments_made : ℚ
  status : String
  notification_due_soon_sent : Bool
  notification_overdue_sent : Bool
  deriving DecidableEq

/-- A repayment row, mirroring the `repayments` table columns. -/
structure Repayment where
  repayment_id : String
  loan_id : String
  amount_paid : ℚ
  repayment_date : Int
  deriving DecidableEq

/-- `calculate_initial_due` (src/app.py lines 98-100): total initially due
including interest. -/
def calculate_initial_due (amount interest_rate : ℚ) : ℚ :=
  amount * (1 + interest_rate)

/-- `calculate_new_due_after_payment` (src/app.py lines 102-107): new total
due on the remaining outstanding balance after a payment, applying the
interest for the next period. -/
def calculate_new_due_after_payment (outstanding_balance interest_rate : ℚ) : ℚ :=
  outstanding_balance * (1 + interest_rate)

/-- `get_loan_status` (src/app.py lines 109-122). The source function takes a
loan record and reads exactly the keys `due_date` (parsed to a date) and
`current_outstanding_balance`, plus the system clock; here those three inputs
are explicit. The literal `1/100` is the 0.01 tolerance of the source. -/
def get_loan_status (due_date : Int) (current_outstanding_balance : ℚ)
    (today : Int) : String :=
  if current_outstanding_balance ≤ 1/100 then "Paid"
  else if today > due_date then "Overdue"
  else if due_date - today ≤ 3 ∧ current_outstanding_balance > 0 then "Due Soon"
  else "Active"

/-- The source call pattern `get_loan_status(loan)`: the classifier applied to
the two fields it reads from the loan record. -/
def loanStatus (loan : Loan) (today : Int) : String :=
  get_loan_status loan.due_date loan.current_outstanding_balance today

/-- Loan creation (src/app.py lines 392-414, the `Create Loan` branch of
`loan_management_main`): interest rate fixed at 0.20, due date 30 days after
the loan date, initial total due from `calculate_initial_due`, balance equal
to the initial total due, zero payments, status "Active", both notification
flags false. -/
def createLoan (loan_id borrower_id : String) (amount : ℚ) (loan_date : Int) :
    Loan :=
  let interest_rate : ℚ := 20/100
  let initial_total_due := calculate_initial_due amount interest_rate
  let due_date := loan_date + 30
  { loan_id := loan_id
    borrower_id := borrower_id
    amount := amount
    interest_rate := interest_rate
    loan_date := loan_date
    due_date := due_date
    initial_total_due := initial_total_due
    current_outstanding_balance := initial_total_due
    payments_made := 0
    status := "Active"
    notification_due_soon_sent := false
    notification_overdue_sent := false }

/-- The state-mutating body of `record_payment` (src/app.py lines 452-499),
with the form/UI glue stripped: the fresh repayment uuid, the system date and
the payment date are parameters. Steps, in source order: clamp the payment to
the outstanding balance when it exceeds it, add the (clamped) amount to
`payments_made`, subtract it from the balance, reset both notification flags,
re-accrue interest when the remaining balance exceeds 0.01 and otherwise clamp
the balance to exactly 0, recompute the status, and build the repayment row
with the clamped amount. -/
def record_payment (repayment_id : String) (today : Int) (payment_amount : ℚ)
    (payment_date : Int) (loan : Loan) : Loan × Repayment :=
  let original_outstanding := loan.current_outstanding_balance
  let payment_amount :=
    if payment_amount > original_outstanding then original_outstanding
    else payment_amount
  let loan := { loan with
    payments_made := loan.payments_made + payment_amount
    current_outstanding_balance :=
      loan.current_outstanding_balance - payment_amount
    notification_due_soon_sent := false
    notification_overdue_sent := false }
  let loan :=
    if loan.current_outstanding_balance > 1/100 then
      { loan with
          current_outstanding_balance :=
            calculate_new_due_after_payment loan.current_outstanding_balance
              loan.interest_rate }
    else
      { loan with current_outstanding_balance := 0 }
  let loan := { loan with status := loanStatus loan today }
  (loan,
   { repayment_id := repayment_id
     loan_id := loan.loan_id
     amount_paid := payment_amount
     repayment_date := payment_date })

/-- The state-mutating body of the loan edit (src/app.py lines 729-748 in
`edit_loan_form`): recompute `initial_total_due` from the edited amount and
the existing rate, shift the balance by the principal change clamping below
at 0, reclassify status from the edited due date and the new balance, and
reset both notification flags. -/
def edit_loan_form (today : Int) (edited_amount : ℚ)
    (edited_loan_date edited_due_date : Int) (loan : Loan) : Loan :=
  let new_initial_total_due :=
    calculate_initial_due edited_amount loan.interest_rate
  let principal_change := edited_amount - loan.amount
  let nb := loan.current_outstanding_balance + principal_change
  let new_current_outstanding_balance := if nb < 0 then 0 else nb
  { loan with
    amount := edited_amount
    loan_date := edited_loan_date
    due_date := edited_due_date
    initial_total_due := new_initial_total_due
    current_outstanding_balance := new_current_outstanding_balance
    status := get_loan_status edited_due_date new_current_outstanding_balance
      today
    notification_due_soon_sent := false
    notification_overdue_sent := false }

/-- An alert dispatched (attempted) by the notification page, tagged with the
loan id. -/
inductive Alert where
  | overdue (loan_id : String)
  | dueSoon (loan_id : String)
  deriving DecidableEq

/-- The per-loan body of `notifications` (src/app.py lines 836-888). `sendOk`
models the result of `send_email`; the returned list holds the email send
attempts for this loan. On a successful send the corresponding flag is
persisted true (the source calls `update_loan_in_db` immediately); on failure
the flag stays false. A loan with positive balance that is neither overdue nor
due soon has both flags cleared when either was true. -/
def notifications_loan_step (sendOk : Bool) (today : Int) (loan : Loan) :
    Loan × List Alert :=
  if loan.current_outstanding_balance > 1/100 then
    if today > loan.due_date then
      if !loan.notification_overdue_sent then
        if sendOk then
          ({ loan with notification_overdue_sent := true },
           [Alert.overdue loan.loan_id])
        else (loan, [Alert.overdue loan.loan_id])
      else (loan, [])
    else if loan.due_date - today ≤ 3 then
      if !loan.notification_due_soon_sent then
        if sendOk then
          ({ loan with notification_due_soon_sent := true },
           [Alert.dueSoon loan.loan_id])
        else (loan, [Alert.dueSoon loan.loan_id])
      else (loan, [])
    else
      if loan.notification_due_soon_sent || loan.notification_overdue_sent then
        ({ loan with
            notification_due_soon_sent := false
            notification_overdue_sent := false }, [])
      else (loan, [])
  else (loan, [])

/-- The full scan of `notifications` over the loan list: the updated loans in
order, and all alerts emitted during the scan. -/
def notifications (sendOk : Bool) (today : Int) : List Loan → List Loan × List Alert
  | [] => ([], [])
  | l :: ls =>
    let r := notifications_loan_step sendOk today l
    let rest := notifications sendOk today ls
    (r.1 :: rest.1, r.2 ++ rest.2)

/-- Which tables exist in the SQLite database file. -/
structure Schema where
  borrowersTable : Bool
  loansTable : Bool
  repaymentsTable : Bool
  deriving DecidableEq

/-- `init_db` (src/app.py lines 21-84): creates the `borrowers` and `loans`
tables if absent. It never creates a `repayments` table. -/
def init_db (s : Schema) : Schema :=
  { s with borrowersTable := true, loansTable := true }

/-- What of a single payment has been durably committed. -/
structure DurableState where
  loanUpdateCommitted : Bool
  repaymentInsertCommitted : Bool
  deriving DecidableEq

/-- `update_loan_in_db` (src/app.py lines 278-299): opens its own connection,
executes the UPDATE and commits it immediately. An UPDATE against a missing
`loans` table raises, is caught, and leaves the write uncommitted; there is no
surrounding transaction shared with any other write. Returns the success flag
the source returns, plus the durable state after this call. -/
def update_loan_in_db (schema : Schema) (st : DurableState) :
    Bool × DurableState :=
  if schema.loansTable then (true, { st with loanUpdateCommitted := true })
  else (false, st)

/-- `add_repayment_to_db` (src/app.py lines 301-318): opens its own connection,
executes the INSERT into `repayments` and commits it immediately. When the
`repayments` table does not exist the INSERT raises, is caught, and nothing is
committed by this call; the loan update committed earlier is not rolled back
because it lives in a different, already-committed connection. -/
def add_repayment_to_db (schema : Schema) (st : DurableState) :
    Bool × DurableState :=
  if schema.repaymentsTable then
    (true, { st with repaymentInsertCommitted := true })
  else (false, st)

/-- The persistence sequence of `record_payment` (src/app.py lines 480-495):
first `update_loan_in_db`, then `add_repayment_to_db`, each committing on its
own connection, with no shared transaction and no rollback of the first write
when the second fails. -/
def record_payment_persist (schema : Schema) (st : DurableState) :
    DurableState :=
  let st1 := (update_loan_in_db schema st).2
  (add_repayment_to_db schema st1).2

/-- One payment event applied to a loan together with its accumulated
repayment history: the repayment id, amount and date of the event. -/
def payStep (today : Int) (s : Loan × List Repayment)
    (pay : String × ℚ × Int) : Loan × List Repayment :=
  let r := record_payment pay.1 today pay.2.1 pay.2.2 s.1
  (r.1, s.2 ++ [r.2])

/-- A sequence of payment events applied in order. -/
def paySteps (today : Int) (pays : List (String × ℚ × Int))
    (s : Loan × List Repayment) : Loan × List Repayment :=
  pays.foldl (payStep today) s

/-- A concrete loan used to instantiate theorems: principal 100 issued on
day 0, so balance 120 and due date 30. -/
def sampleLoan : Loan := createLoan "L1" "B1" 100 0

/-- A loan agreeing with `sampleLoan` on due date and balance but differing in
every other mutable field. -/
def sampleLoanAlt : Loan :=
  { loan_id := "L9"
    borrower_id := "B9"
    amount := 77
    interest_rate := 1/2
    loan_date := 3
    due_date := 30
    initial_total_due := 999
    current_outstanding_balance := 120
    payments_made := 41
    status := "Overdue"
    notification_due_soon_sent := true
    notification_overdue_sent := true }

/-- A loan five days overdue with balance 50 and no alert yet sent. -/
def overdueLoan : Loan :=
  { loan_id := "L2"
    borrower_id := "B2"
    amount := 100
    interest_rate := 20/100
    loan_date := -25
    due_date := 5
    initial_total_due := 120
    current_outstanding_balance := 50
    payments_made := 70
    status := "Overdue"
    notification_due_soon_sent := false
    notification_overdue_sent := false }

/-- C1: for every payment on an existing loan, when the remainder after
subtracting the effective (clamped) payment exceeds 0.01 the stored balance is
that remainder times (1 + interest_rate); when the remainder is at most 0.01
the balance is set to exactly 0 with no re-accrual. -/
theorem C1_payment_reaccrual (repayment_id : String)
    (today payment_date : Int) (payment_amount : ℚ) (loan : Loan)
    (eff rem : ℚ)
    (heff : eff = if payment_amount > loan.current_outstanding_balance
      then loan.current_outstanding_balance else payment_amount)
    (hrem : rem = loan.current_outstanding_balance - eff) :
    (rem > 1/100 →
      (record_payment repayment_id today payment_amount payment_date
        loan).1.current_outstanding_balance = rem * (1 + loan.interest_rate)) ∧
    (rem ≤ 1/100 →
      (record_payment repayment_id today payment_amount payment_date
        loan).1.current_outstanding_balance = 0) := by
  subst hrem
  subst heff
  constructor <;> intro h <;>
    simp only [record_payment, calculate_new_due_after_payment] <;>
    split_ifs <;> simp_all <;> (exfalso; linarith)

/-- C2: a payment whose supplied amount exceeds the outstanding balance is
clamped: payments_made grows by exactly the prior outstanding balance, the
final balance is 0, and the repayment row records the clamped amount. -/
theorem C2_overpayment_clamp (repayment_id : String)
    (today payment_date : Int) (payment_amount : ℚ) (loan : Loan)
    (h : payment_amount > loan.current_outstanding_balance) :
    (record_payment repayment_id today payment_amount payment_date
        loan).1.payments_made
      = loan.payments_made + loan.current_outstanding_balance ∧
    (record_payment repayment_id today payment_amount payment_date
        loan).1.current_outstanding_balance = 0 ∧
    (record_payment repayment_id today payment_amount payment_date
        loan).2.amount_paid = loan.current_outstanding_balance := by
  simp only [record_payment]
  rw [if_pos h]
  norm_num

/-- C3: the status classifier evaluates its rules in order Paid, Overdue,
Due Soon, Active; the extra `balance > 0` conjunct in the Due Soon rule is
redundant below the Paid rule, and any balance at most 0.01 yields Paid
regardless of the due date. -/
theorem C3_status_order (due_date : Int) (balance : ℚ) (today : Int) :
    get_loan_status due_date balance today =
      (if balance ≤ 1/100 then "Paid"
       else if today > due_date then "Overdue"
       else if due_date - today ≤ 3 then "Due Soon"
       else "Active") ∧
    (balance ≤ 1/100 → get_loan_status due_date balance today = "Paid") := by
  constructor
  · unfold get_loan_status
    split_ifs <;> simp_all <;> linarith

  · intro hb
    unfold get_loan_status
    rw [if_pos hb]

/-- C6: every payment unconditionally resets both notification flags to
false, whatever the amount and the resulting balance or status. -/
theorem C6_payment_resets_flags (repayment_id : String)
    (today payment_date : Int) (payment_amount : ℚ) (loan : Loan) :
    (record_payment repayment_id today payment_amount payment_date
        loan).1.notification_due_soon_sent = false ∧
    (record_payment repayment_id today payment_amount payment_date
        loan).1.notification_overdue_sent = false := by
  simp only [record_payment]
  split_ifs <;> simp

/-- C1 witness: on the sample loan (balance 120, rate 0.20), a payment of 50
leaves remainder 70 > 0.01 and the stored balance is 70 * 1.2 = 84; a payment
of 120 leaves remainder 0 ≤ 0.01 and the stored balance is exactly 0. -/
theorem C1_payment_reaccrual_witness :
    (record_payment "r1" 5 50 5 sampleLoan).1.current_outstanding_balance
      = 84 ∧
    (record_payment "r2" 10 120 10
      sampleLoan).1.current_outstanding_balance = 0 := by
  constructor
  · have h := (C1_payment_reaccrual "r1" 5 5 50 sampleLoan
      (if (50:ℚ) > sampleLoan.current_outstanding_balance
        then sampleLoan.current_outstanding_balance else 50)
      (sampleLoan.current_outstanding_balance -
        (if (50:ℚ) > sampleLoan.current_outstanding_balance
          then sampleLoan.current_outstanding_balance else 50)) rfl rfl).1
    have hs : sampleLoan.current_outstanding_balance = 120 := by
      simp [sampleLoan, createLoan, calculate_initial_due]; norm_num
    have hr : sampleLoan.interest_rate = 20/100 := by
      simp [sampleLoan, createLoan]
    rw [hs, hr] at h
    norm_num at h
    exact h
  · have h := (C1_payment_reaccrual "r2" 10 10 120 sampleLoan
      (if (120:ℚ) > sampleLoan.current_outstanding_balance
        then sampleLoan.current_outstanding_balance else 120)
      (sampleLoan.current_outstanding_balance -
        (if (120:ℚ) > sampleLoan.current_outstanding_balance
          then sampleLoan.current_outstanding_balance else 120)) rfl rfl).2
    have hs : sampleLoan.current_outstanding_balance = 120 := by
      simp [sampleLoan, createLoan, calculate_initial_due]; norm_num
    rw [hs] at h
    norm_num at h
    exact h

/-- C2 witness: paying 200 against the sample loan (balance 120) applies
exactly 120, zeroes the balance and records 120 in the repayment row. -/
theorem C2_overpayment_clamp_witness :
    (record_payment "r3" 10 200 10 sampleLoan).1.payments_made
      = sampleLoan.payments_made + sampleLoan.current_outstanding_balance ∧
    (record_payment "r3" 10 200 10 sampleLoan).1.current_outstanding_balance
      = 0 ∧
    (record_payment "r3" 10 200 10 sampleLoan).2.amount_paid
      = sampleLoan.current_outstanding_balance :=
  C2_overpayment_clamp "r3" 10 10 200 sampleLoan (by
    have hs : sampleLoan.current_outstanding_balance = 120 := by
      simp [sampleLoan, createLoan, calculate_initial_due]; norm_num
    rw [hs]; norm_num)

/-- C3 witness: a loan with balance 0 that is five days past due is Paid, not
Overdue. -/
theorem C3_status_order_witness :
    get_loan_status (-5) 0 0 = "Paid" :=
  (C3_status_order (-5) 0 0).2 (by norm_num)

/-- C7: a newly created loan with positive principal has interest rate 0.20,
due date 30 days after the loan date, initial total due equal to the
principal times 1.20, balance equal to the initial total due, zero payments,
status "Active" and both notification flags false. -/
theorem C7_loan_creation (loan_id borrower_id : String) (amount : ℚ)
    (loan_date : Int) (hpos : 0 < amount) :
    (createLoan loan_id borrower_id amount loan_date).interest_rate = 20/100 ∧
    (createLoan loan_id borrower_id amount loan_date).due_date
      = loan_date + 30 ∧
    (createLoan loan_id borrower_id amount loan_date).initial_total_due
      = amount * (1 + 20/100) ∧
    (createLoan loan_id borrower_id amount loan_date).current_outstanding_balance
      = (createLoan loan_id borrower_id amount loan_date).initial_total_due ∧
    (createLoan loan_id borrower_id amount loan_date).payments_made = 0 ∧
    (createLoan loan_id borrower_id amount loan_date).status = "Active" ∧
    (createLoan loan_id borrower_id amount loan_date).notification_due_soon_sent
      = false ∧
    (createLoan loan_id borrower_id amount loan_date).notification_overdue_sent
      = false := by
  simp [createLoan, calculate_initial_due]

/-- C7 witness: principal 100 issued on day 0 yields initial total due 120
and due date 30. -/
theorem C7_loan_creation_witness :
    (createLoan "L1" "B1" 100 0).initial_total_due = 120 ∧
    (createLoan "L1" "B1" 100 0).due_date = 30 := by
  have h := C7_loan_creation "L1" "B1" 100 0 (by norm_num)
  refine ⟨?_, ?_⟩
  · rw [h.2.2.1]; norm_num
  · rw [h.2.1]; norm_num

/-- C8: editing the principal of a loan recomputes the initial total due from
the new amount and the existing rate, shifts the balance by the principal
delta clamped below at 0, recomputes the status with the classifier from the
edited due date and the new balance, and resets both notification flags. -/
theorem C8_edit_loan (today : Int) (edited_amount : ℚ)
    (edited_loan_date edited_due_date : Int) (loan : Loan) :
    (edit_loan_form today edited_amount edited_loan_date edited_due_date
        loan).initial_total_due = edited_amount * (1 + loan.interest_rate) ∧
    (edit_loan_form today edited_amount edited_loan_date edited_due_date
        loan).current_outstanding_balance
      = max 0 (loan.current_outstanding_balance
          + (edited_amount - loan.amount)) ∧
    (edit_loan_form today edited_amount edited_loan_date edited_due_date
        loan).status
      = get_loan_status edited_due_date
          (max 0 (loan.current_outstanding_balance
            + (edited_amount - loan.amount))) today ∧
    (edit_loan_form today edited_amount edited_loan_date edited_due_date
        loan).notification_due_soon_sent = false ∧
    (edit_loan_form today edited_amount edited_loan_date edited_due_date
        loan).notification_overdue_sent = false := by
  have hmax : (if loan.current_outstanding_balance
        + (edited_amount - loan.amount) < 0 then (0:ℚ)
      else loan.current_outstanding_balance + (edited_amount - loan.amount))
      = max 0 (loan.current_outstanding_balance
          + (edited_amount - loan.amount)) := by
    rcases lt_or_le (loan.current_outstanding_balance
        + (edited_amount - loan.amount)) 0 with hlt | hle
    · rw [if_pos hlt, max_eq_left hlt.le]
    · rw [if_neg (not_lt.2 hle), max_eq_right hle]
  refine ⟨by simp [edit_loan_form, calculate_initial_due], ?_, ?_, ?_, ?_⟩ <;>
    simp only [edit_loan_form, hmax]

/-- C9: the status classifier is a pure function of exactly the due date, the
outstanding balance and the current date: two loans agreeing on due date and
balance classify identically on the same day, whatever their other fields. -/
theorem C9_classifier_pure (l1 l2 : Loan) (today1 today2 : Int)
    (hd : l1.due_date = l2.due_date)
    (hb : l1.current_outstanding_balance = l2.current_outstanding_balance)
    (ht : today1 = today2) :
    loanStatus l1 today1 = loanStatus l2 today2 := by
  simp [loanStatus, hd, hb, ht]

/-- C9 witness: `sampleLoan` and `sampleLoanAlt` differ in id, principal,
rate, payment history, stored status and flags, yet agree on due date and
balance, so they classify identically. -/
theorem C9_classifier_pure_witness :
    loanStatus sampleLoan 0 = loanStatus sampleLoanAlt 0 :=
  C9_classifier_pure sampleLoan sampleLoanAlt 0 0 (by decide)
    (by simp [sampleLoan, sampleLoanAlt, createLoan, calculate_initial_due]
        norm_num) rfl

/-- C4: the claim asserts that the loan update and the repayment insert are
committed atomically. The code commits each on its own connection
(`update_loan_in_db` then `add_repayment_to_db`), and `init_db` never creates
the `repayments` table, so on a fresh database the persistence sequence of a
payment leaves the durable store with exactly one of the two writes applied:
the loan update committed and the repayment insert not. -/
theorem C4_persistence_not_atomic :
    (record_payment_persist
      (init_db { borrowersTable := false, loansTable := false,
                 repaymentsTable := false })
      { loanUpdateCommitted := false,
        repaymentInsertCommitted := false }).loanUpdateCommitted = true ∧
    (record_payment_persist
      (init_db { borrowersTable := false, loansTable := false,
                 repaymentsTable := false })
      { loanUpdateCommitted := false,
        repaymentInsertCommitted := false }).repaymentInsertCommitted
      = false := by
  decide

lemma notifications_loan_step_fields (sendOk : Bool) (today : Int)
    (l : Loan) :
    (notifications_loan_step sendOk today l).1.current_outstanding_balance
      = l.current_outstanding_balance ∧
    (notifications_loan_step sendOk today l).1.due_date = l.due_date := by
  unfold notifications_loan_step
  split_ifs <;> simp

lemma step_blocked (today : Int) (l : Loan)
    (h : ¬ l.current_outstanding_balance > 1/100
      ∨ (today > l.due_date ∧ l.notification_overdue_sent = true)
      ∨ (¬ today > l.due_date ∧ l.due_date - today ≤ 3
          ∧ l.notification_due_soon_sent = true)
      ∨ (¬ today > l.due_date ∧ ¬ l.due_date - today ≤ 3))
    (sendOk : Bool) :
    (notifications_loan_step sendOk today l).2 = [] := by
  unfold notifications_loan_step
  split_ifs <;> simp_all <;> linarith

lemma step_result_blocked (today : Int) (l : Loan) :
    ¬ (notifications_loan_step true today l).1.current_outstanding_balance
        > 1/100
    ∨ (today > (notifications_loan_step true today l).1.due_date
        ∧ (notifications_loan_step true today l).1.notification_overdue_sent
          = true)
    ∨ (¬ today > (notifications_loan_step true today l).1.due_date
        ∧ (notifications_loan_step true today l).1.due_date - today ≤ 3
        ∧ (notifications_loan_step true today l).1.notification_due_soon_sent
          = true)
    ∨ (¬ today > (notifications_loan_step true today l).1.due_date
        ∧ ¬ (notifications_loan_step true today l).1.due_date - today ≤ 3) := by
  unfold notifications_loan_step
  split_ifs <;> simp_all

lemma notifications_loan_step_second_empty (today : Int) (l : Loan) :
    (notifications_loan_step true today
      (notifications_loan_step true today l).1).2 = [] :=
  step_blocked today _ (step_result_blocked today l) true

lemma notifications_second_empty (today : Int) (loans : List Loan) :
    (notifications true today (notifications true today loans).1).2 = [] := by
  induction loans with
  | nil => simp [notifications]
  | cons l ls ih =>
      simp [notifications, notifications_loan_step_second_empty, ih]

lemma step_overdue_alert_needs_flag_false (today : Int) (sendOk : Bool)
    (l : Loan) :
    Alert.overdue l.loan_id ∈ (notifications_loan_step sendOk today l).2 →
      l.notification_overdue_sent = false := by
  unfold notifications_loan_step
  split_ifs <;> simp_all

lemma step_due_soon_alert_needs_flag_false (today : Int) (sendOk : Bool)
    (l : Loan) :
    Alert.dueSoon l.loan_id ∈ (notifications_loan_step sendOk today l).2 →
      l.notification_due_soon_sent = false := by
  unfold notifications_loan_step
  split_ifs <;> simp_all

lemma step_overdue_alert_sets_flag (today : Int) (l : Loan) :
    Alert.overdue l.loan_id ∈ (notifications_loan_step true today l).2 →
      (notifications_loan_step true today l).1.notification_overdue_sent
        = true := by
  unfold notifications_loan_step
  split_ifs <;> simp_all

lemma step_due_soon_alert_sets_flag (today : Int) (l : Loan) :
    Alert.dueSoon l.loan_id ∈ (notifications_loan_step true today l).2 →
      (notifications_loan_step true today l).1.notification_due_soon_sent
        = true := by
  unfold notifications_loan_step
  split_ifs <;> simp_all

lemma step_overdue_no_due_soon_alert (today : Int) (sendOk : Bool) (l : Loan)
    (hod : today > l.due_date) :
    Alert.dueSoon l.loan_id ∉ (notifications_loan_step sendOk today l).2 := by
  unfold notifications_loan_step
  split_ifs <;> simp_all

lemma step_overdue_sends_exactly_one (today : Int) (sendOk : Bool) (l : Loan)
    (hod : today > l.due_date)
    (hbal : l.current_outstanding_balance > 1/100)
    (hflag : l.notification_overdue_sent = false) :
    (notifications_loan_step sendOk today l).2
      = [Alert.overdue l.loan_id] := by
  unfold notifications_loan_step
  split_ifs <;> simp_all

/-- C5: in a notification scan, an alert for a condition is attempted only
when the flag of that condition is false; a successful send persists the flag
true; with all sends succeeding, an immediate second scan with no intervening
mutation emits no alert; and an overdue loan never receives the due-soon
alert — when its balance exceeds 0.01 and its overdue flag is false it
receives exactly the overdue alert. -/
theorem C5_notification_scan (today : Int) :
    (∀ (sendOk : Bool) (l : Loan),
      Alert.overdue l.loan_id ∈ (notifications_loan_step sendOk today l).2 →
        l.notification_overdue_sent = false) ∧
    (∀ (sendOk : Bool) (l : Loan),
      Alert.dueSoon l.loan_id ∈ (notifications_loan_step sendOk today l).2 →
        l.notification_due_soon_sent = false) ∧
    (∀ l : Loan,
      Alert.overdue l.loan_id ∈ (notifications_loan_step true today l).2 →
        (notifications_loan_step true today l).1.notification_overdue_sent
          = true) ∧
    (∀ l : Loan,
      Alert.dueSoon l.loan_id ∈ (notifications_loan_step true today l).2 →
        (notifications_loan_step true today l).1.notification_due_soon_sent
          = true) ∧
    (∀ loans : List Loan,
      (notifications true today (notifications true today loans).1).2 = []) ∧
    (∀ (sendOk : Bool) (l : Loan), today > l.due_date →
      Alert.dueSoon l.loan_id ∉ (notifications_loan_step sendOk today l).2) ∧
    (∀ (sendOk : Bool) (l : Loan), today > l.due_date →
      l.current_outstanding_balance > 1/100 →
      l.notification_overdue_sent = false →
      (notifications_loan_step sendOk today l).2
        = [Alert.overdue l.loan_id]) :=
  ⟨step_overdue_alert_needs_flag_false today,
   step_due_soon_alert_needs_flag_false today,
   step_overdue_alert_sets_flag today,
   step_due_soon_alert_sets_flag today,
   notifications_second_empty today,
   step_overdue_no_due_soon_alert today,
   step_overdue_sends_exactly_one today⟩

/-- C5 witness: the loan five days overdue with balance 50 and a clear flag
receives exactly the overdue alert (and hence no due-soon alert), and an
immediate second scan over it emits nothing. -/
theorem C5_notification_scan_witness :
    (notifications_loan_step true 10 overdueLoan).2
      = [Alert.overdue overdueLoan.loan_id] ∧
    (notifications true 10 (notifications true 10 [overdueLoan]).1).2
      = [] := by
  constructor
  · exact (C5_notification_scan 10).2.2.2.2.2.2 true overdueLoan (by decide)
      (by norm_num [overdueLoan]) rfl
  · exact (C5_notification_scan 10).2.2.2.2.1 [overdueLoan]

lemma record_payment_adds_amount (repayment_id : String)
    (today payment_date : Int) (payment_amount : ℚ) (loan : Loan) :
    (record_payment repayment_id today payment_amount payment_date
        loan).1.payments_made
      = loan.payments_made + (record_payment repayment_id today
          payment_amount payment_date loan).2.amount_paid := by
  simp only [record_payment]
  split_ifs <;> rfl

lemma paySteps_sum_invariant (today : Int)
    (pays : List (String × ℚ × Int)) :
    ∀ s : Loan × List Repayment,
      s.1.payments_made = (s.2.map Repayment.amount_paid).sum →
      (paySteps today pays s).1.payments_made
        = ((paySteps today pays s).2.map Repayment.amount_paid).sum := by
  induction pays with
  | nil => intro s hs; simpa [paySteps] using hs
  | cons p ps ih =>
      intro s hs
      have hstep : (payStep today s p).1.payments_made
          = ((payStep today s p).2.map Repayment.amount_paid).sum := by
        simp [payStep, record_payment_adds_amount, hs]
      have hrec := ih (payStep today s p) hstep
      simpa [paySteps] using hrec

/-- C10: starting from a freshly created loan (zero payments, no repayment
rows) and applying any sequence of payments, the cumulative payments_made
always equals the sum of the amounts of the appended repayment rows; each
individual payment adds the same effective amount to payments_made and to
its repayment row. -/
theorem C10_payments_match_ledger (loan_id borrower_id : String)
    (amount : ℚ) (loan_date today : Int)
    (pays : List (String × ℚ × Int)) :
    (createLoan loan_id borrower_id amount loan_date).payments_made = 0 ∧
    (∀ (repayment_id : String) (payment_amount : ℚ) (payment_date : Int)
        (l : Loan),
      (record_payment repayment_id today payment_amount payment_date
          l).1.payments_made
        = l.payments_made + (record_payment repayment_id today
            payment_amount payment_date l).2.amount_paid) ∧
    (paySteps today pays
        (createLoan loan_id borrower_id amount loan_date, [])).1.payments_made
      = ((paySteps today pays
          (createLoan loan_id borrower_id amount loan_date, [])).2.map
            Repayment.amount_paid).sum := by
  refine ⟨rfl, fun rid p pd l => record_payment_adds_amount rid today pd p l,
    ?_⟩
  exact paySteps_sum_invariant today pays _ (by simp [createLoan])
